import Mathlib

/-!
Shallow embedding of the X-trends LangGraph agent
(`src/langgraph_agents/agent.py`, mirrored by `src/beeai_agents/agent.py`).

Strings are modelled as `List Char`.  The external collaborators (the
language model and the web-search wrapper) are an `Env` of oracle
functions; each pipeline node returns its updated state together with the
trace of external calls it makes, so that claims about which calls are
issued (and with which arguments) can be stated.
-/

namespace XTrends

/-- Python `str.isspace` on the ASCII whitespace characters relevant to
`str.strip()` (model of Python whitespace). -/
def isPySpace (c : Char) : Bool :=
  c = ' ' || c = '\t' || c = '\n' || c = '\r' || c = '\x0b' || c = '\x0c'

/-- Python `s.strip()`: drop whitespace from the front, then from the back. -/
def pyStrip (s : List Char) : List Char :=
  List.rdropWhile isPySpace (List.dropWhile isPySpace s)

/-- Python `s.split(sep)` for a one-character separator: always returns at
least one piece; `"".split(",") == [""]`. -/
def pySplit (sep : Char) : List Char → List (List Char)
  | [] => [[]]
  | c :: cs =>
    let rest := pySplit sep cs
    if c = sep then [] :: rest
    else (c :: rest.headI) :: rest.tail

/-- `agent.py` line 44: `content.strip().lower().replace("'", "").replace('"', "")`. -/
def normalizeCountry (s : List Char) : List Char :=
  ((((pyStrip s).map Char.toLower).filter (fun c => c ≠ '\'')).filter (fun c => c ≠ '"'))

/-- `agent.py` line 63: `[t.strip() for t in content.split(",") if t.strip()]`,
then line 65 truncates with `[:5]`. -/
def parseTrends (reply : List Char) : List (List Char) :=
  ((((pySplit ',' reply).map pyStrip).filter (fun t => ¬ t.isEmpty)).take 5)

-- Basic lemmas about the string model.

theorem headI_mem_of_ne_nil {l : List (List Char)} (h : l ≠ []) : l.headI ∈ l := by
  cases l with
  | nil => exact absurd rfl h
  | cons a t => simp

theorem pySplit_ne_nil (sep : Char) (l : List Char) : pySplit sep l ≠ [] := by
  cases l with
  | nil => simp [pySplit]
  | cons c cs =>
    simp only [pySplit]
    split <;> simp

theorem not_mem_of_mem_pySplit {sep : Char} {l piece : List Char}
    (h : piece ∈ pySplit sep l) : sep ∉ piece := by
  induction l generalizing piece with
  | nil =>
    simp only [pySplit, List.mem_singleton] at h
    simp [h]
  | cons c cs ih =>
    simp only [pySplit] at h
    by_cases hc : c = sep
    · rw [if_pos hc] at h
      rcases List.mem_cons.mp h with h1 | h2
      · simp [h1]
      · exact ih h2
    · rw [if_neg hc] at h
      rcases List.mem_cons.mp h with h1 | h2
      · subst h1
        intro hmem
        rcases List.mem_cons.mp hmem with h3 | h4
        · exact hc h3.symm
        · exact ih (headI_mem_of_ne_nil (pySplit_ne_nil sep cs)) h4
      · exact ih (List.mem_of_mem_tail h2)

theorem pySplit_of_not_mem {sep : Char} {l : List Char} (h : sep ∉ l) :
    pySplit sep l = [l] := by
  induction l with
  | nil => rfl
  | cons c cs ih =>
    have hc : c ≠ sep := fun hcs => h (hcs ▸ List.mem_cons_self c cs)
    have hcs : sep ∉ cs := fun hm => h (List.mem_cons_of_mem c hm)
    simp [pySplit, if_neg hc, ih hcs]

theorem dropWhile_pyStrip (s : List Char) :
    List.dropWhile isPySpace (pyStrip s) = pyStrip s := by
  rw [List.dropWhile_eq_self_iff]
  intro hl
  have hpre : pyStrip s <+: List.dropWhile isPySpace s :=
    List.rdropWhile_prefix _ _
  have hlen : 0 < (List.dropWhile isPySpace s).length :=
    lt_of_lt_of_le hl (List.IsPrefix.length_le hpre)
  have hget : (pyStrip s).get ⟨0, hl⟩ = (List.dropWhile isPySpace s).get ⟨0, hlen⟩ := by
    simpa using List.IsPrefix.getElem hpre hl
  rw [hget]
  exact List.dropWhile_get_zero_not isPySpace s hlen

theorem pyStrip_idem (s : List Char) : pyStrip (pyStrip s) = pyStrip s := by
  unfold pyStrip
  rw [show List.dropWhile isPySpace (List.rdropWhile isPySpace
        (List.dropWhile isPySpace s)) = List.rdropWhile isPySpace
        (List.dropWhile isPySpace s) from dropWhile_pyStrip s]
  exact List.rdropWhile_idempotent _ _

theorem pyStrip_subset (s : List Char) : pyStrip s ⊆ s := by
  intro x hx
  have h1 : pyStrip s ⊆ List.dropWhile isPySpace s :=
    List.IsPrefix.subset (List.rdropWhile_prefix _ _)
  have h2 : List.dropWhile isPySpace s ⊆ s :=
    List.IsSuffix.subset (List.dropWhile_suffix _)
  exact h2 (h1 hx)

theorem parseTrends_length_le (reply : List Char) :
    (parseTrends reply).length ≤ 5 := by
  unfold parseTrends
  exact List.length_take_le _ _

theorem mem_parseTrends {reply t : List Char} (h : t ∈ parseTrends reply) :
    pyStrip t = t ∧ t ≠ [] ∧ (∃ piece ∈ pySplit ',' reply, t = pyStrip piece) := by
  unfold parseTrends at h
  have h1 := List.mem_of_mem_take h
  rw [List.mem_filter] at h1
  obtain ⟨hmem, hne⟩ := h1
  rw [List.mem_map] at hmem
  obtain ⟨piece, hpiece, hst⟩ := hmem
  subst hst
  refine ⟨pyStrip_idem piece, ?_, piece, hpiece, rfl⟩
  intro hnil
  rw [hnil] at hne
  simp at hne

theorem parseTrends_no_comma {reply t : List Char} (h : t ∈ parseTrends reply) :
    ',' ∉ t := by
  obtain ⟨-, -, piece, hpiece, ht⟩ := mem_parseTrends h
  intro hc
  rw [ht] at hc
  exact not_mem_of_mem_pySplit hpiece (pyStrip_subset piece hc)

theorem parseTrends_single {reply : List Char} (hnc : ',' ∉ reply)
    (hne : pyStrip reply ≠ []) : parseTrends reply = [pyStrip reply] := by
  unfold parseTrends
  rw [pySplit_of_not_mem hnc]
  simp [hne]

/-- A result returned by `DuckDuckGoSearchAPIWrapper.results`: a Python dict,
modelled as an insertion-ordered association list of string keys and values. -/
structure SearchResult where
  fields : List (List Char × List Char)
deriving DecidableEq

/-- `r.get('snippet', '')`: the value under key `snippet`, or the empty
string when the key is absent. -/
def getSnippet (r : SearchResult) : List Char :=
  (r.fields.lookup ("snippet".data)).getD []

/-- Model of Python `repr` of a string: the text between single quotes. -/
def pyReprStr (s : List Char) : List Char :=
  '\'' :: (s ++ ['\''])

/-- Model of Python `str`/`repr` of one result dict:
`\x7b'key': 'value', ...\x7d` with keys in insertion order. -/
def reprDict (r : SearchResult) : List Char :=
  '{' :: (List.intercalate (", ".data)
    (r.fields.map (fun kv => pyReprStr kv.1 ++ ": ".data ++ pyReprStr kv.2)) ++ ['}'])

/-- Model of Python `str` of the list of result dicts, as interpolated by the
f-string on line 79 of `agent.py`. -/
def reprResults (rs : List SearchResult) : List Char :=
  '[' :: (List.intercalate (", ".data) (rs.map reprDict) ++ [']'])

/-- The external collaborators: the language model (`llm.ainvoke`, reply
content already extracted) and the web search (`search_wrapper.results`). -/
structure Env where
  llm : List Char → List Char
  search : List Char → Nat → List SearchResult

/-- One external call made by the pipeline. -/
inductive Event where
  | searchCall : List Char → Nat → Event
  | llmCall : List Char → Event
deriving DecidableEq

/-- Is the event a web-search call? -/
def isSearchEvent : Event → Bool
  | Event.searchCall _ _ => true
  | Event.llmCall _ => false

/-- The `AgentState` TypedDict of `agent.py` lines 19-23. -/
structure AgentState where
  query : List Char
  trends : List (List Char)
  context_reports : List (List Char)
  final_report : List Char
deriving DecidableEq

/-- `agent.py` lines 37-42: the country-identification prompt. -/
def country_prompt (query : List Char) : List Char :=
  ("Identify if a specific country is mentioned in the following user query. Return only the country name in English (lowercase), or 'global' if no country is specified. Return ONLY the word, no explanation. Query: ").data ++ query

/-- `agent.py` line 47. -/
def base_url : List Char := "https://trends24.in/".data

/-- `agent.py` line 48: the target URL built from the country token. -/
def buildUrl (country : List Char) : List Char :=
  if country ≠ "global".data then base_url ++ country ++ "/".data else base_url

/-- `agent.py` line 53: the trends search query; the country token is
replaced by the empty string when it is `global`. -/
def trends_search_query (country : List Char) : List Char :=
  "site:trends24.in top trending topics ".data ++
    (if country ≠ "global".data then country else [])

/-- `agent.py` lines 57-61: the trend-extraction prompt. -/
def extract_prompt (url results_text : List Char) : List Char :=
  "Based on these search results for ".data ++ url ++
    (", extract EXACTLY the TOP 5 trending topics for today. Return them as a comma-separated list, nothing else. Results:\n").data ++ results_text

/-- `agent.py` line 72: the per-trend context search query. -/
def context_query (trend : List Char) : List Char :=
  "why is ".data ++ trend ++ " trending news today source article".data

/-- `agent.py` lines 75-79: the per-trend research prompt.  Note that the
f-string interpolates the raw `search_results` value (the Python list of
dicts), not the snippets. -/
def context_prompt (trend : List Char) (search_results : List SearchResult) : List Char :=
  "Explain briefly why '".data ++ trend ++
    ("' is trending. Use the search results below. You MUST include at least one source URL from the results. Format: Friendly explanation followed by [Source: URL]\n\nSearch Results:\n").data ++
    reprResults search_results

/-- `agent.py` lines 90-96: the synthesis prompt. -/
def final_prompt (reports_text : List Char) : List Char :=
  ("Synthesize the following trend analysis into a single, coherent, and friendly report. You are an insightful X trends analyst. Use emojis (💡, 📰, 🚀, etc.) to make it engaging. Ensure each of the 5 trends has its explanation and MUST include the source URL. Greet the user as a friend.\n\nContext Reports:\n").data ++ reports_text

/-- Node `get_trends` (`analyze_and_get_trends`, `agent.py` lines 32-65),
paired with its trace of external calls. -/
def analyze_and_get_trends (env : Env) (st : AgentState) : AgentState × List Event :=
  let cprompt := country_prompt st.query
  let country := normalizeCountry (env.llm cprompt)
  let url := buildUrl country
  let squery := trends_search_query country
  let results := env.search squery 5
  let results_text := List.intercalate ("\n".data) (results.map getSnippet)
  let eprompt := extract_prompt url results_text
  let reply := env.llm eprompt
  ({ st with trends := parseTrends reply },
   [Event.llmCall cprompt, Event.searchCall squery 5, Event.llmCall eprompt])

/-- The country token computed inside `analyze_and_get_trends`. -/
def countryOf (env : Env) (st : AgentState) : List Char :=
  normalizeCountry (env.llm (country_prompt st.query))

/-- The language model's reply to the trend-extraction prompt inside
`analyze_and_get_trends`. -/
def stage2Reply (env : Env) (st : AgentState) : List Char :=
  env.llm (extract_prompt (buildUrl (countryOf env st))
    (List.intercalate ("\n".data)
      ((env.search (trends_search_query (countryOf env st)) 5).map getSnippet)))

/-- One iteration of the loop in `research_trends_context`
(`agent.py` lines 70-82): the report for one trend and the calls made. -/
def researchOne (env : Env) (trend : List Char) : List Char × List Event :=
  let q := context_query trend
  let rs := env.search q 3
  let cprompt := context_prompt trend rs
  (pyStrip (env.llm cprompt), [Event.searchCall q 3, Event.llmCall cprompt])

/-- The `for trend in state['trends']` loop of `agent.py` lines 70-82, with
its accumulating `reports` list and the trace of calls. -/
def researchLoop (env : Env) :
    List (List Char) → List (List Char) → List Event → List (List Char) × List Event
  | [], reports, events => (reports, events)
  | trend :: rest, reports, events =>
    researchLoop env rest (reports ++ [(researchOne env trend).1])
      (events ++ (researchOne env trend).2)

/-- Node `research_context` (`research_trends_context`, `agent.py` lines 67-84). -/
def research_trends_context (env : Env) (st : AgentState) : AgentState × List Event :=
  ({ st with context_reports := (researchLoop env st.trends [] []).1 },
   (researchLoop env st.trends [] []).2)

/-- Node `synthesize` (`synthesize_report`, `agent.py` lines 86-98). -/
def synthesize_report (env : Env) (st : AgentState) : AgentState × List Event :=
  let reports_text := List.intercalate ("\n\n".data) st.context_reports
  let fprompt := final_prompt reports_text
  ({ st with final_report := pyStrip (env.llm fprompt) }, [Event.llmCall fprompt])

/-- The sentinel name LangGraph uses for `END`. -/
def endNode : String := "__end__"

/-- `agent.py` lines 108: the graph's entry point. -/
def entry_point : String := "get_trends"

/-- `agent.py` lines 109-111: the graph's edges (`synthesize` goes to `END`). -/
def graph_edges : List (String × String) :=
  [("get_trends", "research_context"),
   ("research_context", "synthesize"),
   ("synthesize", "__end__")]

/-- The successor of a node along the graph's edges. -/
def next_node (n : String) : Option String := graph_edges.lookup n

/-- The nodes visited starting from `n`, following edges until `END`
(fuel-bounded walk; the graph is finite and acyclic). -/
def walkFrom : Nat → String → List String
  | 0, _ => []
  | fuel + 1, n =>
    if n = endNode then []
    else n :: (match next_node n with
               | some m => walkFrom fuel m
               | none => [])

/-- The order in which the compiled graph executes its nodes. -/
def executionOrder : List String := walkFrom 5 entry_point

/-- The node functions registered by `workflow.add_node` (`agent.py` lines 104-106). -/
def nodeFn (n : String) (env : Env) (st : AgentState) : AgentState × List Event :=
  if n = "get_trends" then analyze_and_get_trends env st
  else if n = "research_context" then research_trends_context env st
  else if n = "synthesize" then synthesize_report env st
  else (st, [])

/-- `app.ainvoke`: run the nodes in execution order, merging each partial
update into the state and concatenating the call traces. -/
def runGraph (env : Env) (st : AgentState) : AgentState × List Event :=
  executionOrder.foldl
    (fun acc n => ((nodeFn n env acc.1).1, acc.2 ++ (nodeFn n env acc.1).2))
    (st, [])

/-- `agent.py` line 149: the fresh initial state built by the handler. -/
def initial_state (q : List Char) : AgentState :=
  { query := q, trends := [], context_reports := [], final_report := [] }

/-- The server handler (`agent.py` lines 144-152): build the initial state
from the inbound text, run the graph, and yield the outbound messages (the
list of texts yielded; the code yields exactly once). -/
def langgraph_trends_agent (env : Env) (input_text : List Char) : List (List Char) :=
  [(runGraph env (initial_state input_text)).1.final_report]

-- Lemmas about the pipeline.

theorem analyze_trends_eq (env : Env) (st : AgentState) :
    (analyze_and_get_trends env st).1.trends = parseTrends (stage2Reply env st) := rfl

theorem researchLoop_spec (env : Env) (ts : List (List Char))
    (reports : List (List Char)) (events : List Event) :
    researchLoop env ts reports events
      = (reports ++ ts.map (fun t => (researchOne env t).1),
         events ++ (ts.map (fun t => (researchOne env t).2)).flatten) := by
  induction ts generalizing reports events with
  | nil => simp [researchLoop]
  | cons t rest ih => simp [researchLoop, ih]

theorem research_reports (env : Env) (st : AgentState) :
    (research_trends_context env st).1.context_reports
      = st.trends.map (fun t => (researchOne env t).1) := by
  show (researchLoop env st.trends [] []).1 = _
  rw [researchLoop_spec]
  simp

theorem research_events (env : Env) (st : AgentState) :
    (research_trends_context env st).2
      = (st.trends.map (fun t => (researchOne env t).2)).flatten := by
  show (researchLoop env st.trends [] []).2 = _
  rw [researchLoop_spec]
  simp

theorem research_search_calls (env : Env) (ts : List (List Char)) :
    ((ts.map (fun t => (researchOne env t).2)).flatten).filter isSearchEvent
      = ts.map (fun t => Event.searchCall (context_query t) 3) := by
  induction ts with
  | nil => rfl
  | cons t rest ih =>
    rw [List.map_cons, List.flatten_cons, List.filter_append, ih]
    rfl

theorem runGraph_eq (env : Env) (st : AgentState) :
    runGraph env st
      = ((synthesize_report env
            (research_trends_context env (analyze_and_get_trends env st).1).1).1,
         (analyze_and_get_trends env st).2
           ++ ((research_trends_context env (analyze_and_get_trends env st).1).2
           ++ (synthesize_report env
                (research_trends_context env (analyze_and_get_trends env st).1).1).2)) := rfl

-- Claim theorems.

/-- C1: for every language-model reply (hence for every environment), the
trend list produced by stage 2 has length at most 5 and every entry is
non-empty after trimming. -/
theorem c1_trends_bounded_nonempty (env : Env) (st : AgentState) :
    ((analyze_and_get_trends env st).1.trends).length ≤ 5 ∧
    ∀ t ∈ (analyze_and_get_trends env st).1.trends, pyStrip t ≠ [] := by
  constructor
  · rw [analyze_trends_eq]
    exact parseTrends_length_le _
  · intro t ht
    rw [analyze_trends_eq] at ht
    obtain ⟨hfix, hne, -⟩ := mem_parseTrends ht
    rw [hfix]
    exact hne

/-- Witness for C1 at a concrete environment whose model reply is `"a, b"`. -/
theorem c1_witness :
    ((analyze_and_get_trends (⟨fun _ => "a, b".data, fun _ _ => []⟩ : Env)
        (initial_state [])).1.trends).length ≤ 5 ∧
    pyStrip ("a".data) ≠ [] :=
  ⟨(c1_trends_bounded_nonempty (⟨fun _ => "a, b".data, fun _ _ => []⟩ : Env)
      (initial_state [])).1,
   (c1_trends_bounded_nonempty (⟨fun _ => "a, b".data, fun _ _ => []⟩ : Env)
      (initial_state [])).2 ("a".data) (by decide)⟩

/-- C2: stage 3 produces one context report per trend, positionally
aligned: report `i` is the one generated from trend `i`. -/
theorem c2_reports_aligned (env : Env) (st : AgentState) :
    (research_trends_context env st).1.context_reports.length = st.trends.length ∧
    ∀ i (h : i < st.trends.length),
      (research_trends_context env st).1.context_reports[i]? =
        some ((researchOne env st.trends[i]).1) := by
  constructor
  · rw [research_reports, List.length_map]
  · intro i h
    rw [research_reports, List.getElem?_map, List.getElem?_eq_getElem h]
    rfl

/-- Witness for C2 with one trend `"a"` and a constant model. -/
theorem c2_witness :
    (research_trends_context (⟨fun _ => "r".data, fun _ _ => []⟩ : Env)
        (⟨[], ["a".data], [], []⟩ : AgentState)).1.context_reports[0]? =
      some ((researchOne (⟨fun _ => "r".data, fun _ _ => []⟩ : Env) ("a".data)).1) := by
  have h := (c2_reports_aligned (⟨fun _ => "r".data, fun _ _ => []⟩ : Env)
      (⟨[], ["a".data], [], []⟩ : AgentState)).2 0 (by decide)
  simpa using h

/-- C3: the handler seeds a fresh state (extracted query, empty trends,
reports and report), the graph runs `get_trends`, `research_context`,
`synthesize` strictly in that order with no branching, and the handler
emits exactly one outbound message carrying the resulting `final_report`. -/
theorem c3_handler_linear (env : Env) (q : List Char) :
    executionOrder = ["get_trends", "research_context", "synthesize"] ∧
    initial_state q
      = { query := q, trends := [], context_reports := [], final_report := [] } ∧
    langgraph_trends_agent env q
      = [(synthesize_report env
            (research_trends_context env
              (analyze_and_get_trends env (initial_state q)).1).1).1.final_report] :=
  ⟨rfl, rfl, rfl⟩

/-- C4: the target URL is the base URL for the sentinel `global`, and the
base URL followed by the token and a trailing slash otherwise. -/
theorem c4_url_construction (c : List Char) :
    (c = "global".data → buildUrl c = base_url) ∧
    (c ≠ "global".data → buildUrl c = base_url ++ c ++ "/".data) := by
  constructor
  · intro h
    simp [buildUrl, h]
  · intro h
    simp [buildUrl, h]

/-- Witness for C4 at the tokens `global` and `japan`. -/
theorem c4_witness :
    buildUrl ("global".data) = base_url ∧
    buildUrl ("japan".data) = "https://trends24.in/japan/".data := by
  constructor
  · exact (c4_url_construction ("global".data)).1 rfl
  · rw [(c4_url_construction ("japan".data)).2 (by decide)]
    decide

set_option maxRecDepth 8192 in
/-- C5 counterexample: two search-result lists that agree on every snippet
but differ in a `link` field produce different stage-3 research prompts, so
a field other than `snippet` does influence a prompt of the pipeline. -/
theorem c5_counterexample :
    (([⟨[("snippet".data, "s".data), ("link".data, "a".data)]⟩] :
        List SearchResult).map getSnippet
      = ([⟨[("snippet".data, "s".data), ("link".data, "b".data)]⟩] :
        List SearchResult).map getSnippet) ∧
    context_prompt ("t".data)
        [⟨[("snippet".data, "s".data), ("link".data, "a".data)]⟩]
      ≠ context_prompt ("t".data)
        [⟨[("snippet".data, "s".data), ("link".data, "b".data)]⟩] := by
  constructor
  · decide
  · decide

/-- C5 amended: stage 2 depends on search results only through their
snippets (newline-joined, missing snippet = empty string), while the
stage-3 research prompt interpolates the string representation of the
whole result list, every field included. -/
theorem c5_amended_snippet_dependence (env env2 : Env) (st : AgentState)
    (hllm : env.llm = env2.llm)
    (hs : ∀ q n, (env.search q n).map getSnippet = (env2.search q n).map getSnippet) :
    analyze_and_get_trends env st = analyze_and_get_trends env2 st ∧
    ∀ trend rs, context_prompt trend rs
      = "Explain briefly why '".data ++ trend ++
        ("' is trending. Use the search results below. You MUST include at least one source URL from the results. Format: Friendly explanation followed by [Source: URL]\n\nSearch Results:\n").data ++
        reprResults rs := by
  constructor
  · simp only [analyze_and_get_trends, hllm, hs]
  · intro trend rs
    rfl

/-- Witness for C5: two concrete environments agreeing on snippets (but not
on the `link` field) make stage 2 behave identically. -/
theorem c5_witness :
    analyze_and_get_trends
        (⟨fun _ => "x".data,
          fun _ _ => [⟨[("snippet".data, "s".data), ("link".data, "a".data)]⟩]⟩ : Env)
        (initial_state [])
      = analyze_and_get_trends
        (⟨fun _ => "x".data,
          fun _ _ => [⟨[("snippet".data, "s".data), ("link".data, "b".data)]⟩]⟩ : Env)
        (initial_state []) :=
  (c5_amended_snippet_dependence _ _ _ rfl (fun _ _ => rfl)).1

/-- C6 counterexample: `" a"` is lowercase and contains no quote character,
yet normalization does not return it unchanged (it strips the space). -/
theorem c6_counterexample :
    ((" a".data).map Char.toLower = " a".data) ∧
    (∀ c ∈ (" a".data), c ≠ '\'' ∧ c ≠ '"') ∧
    normalizeCountry (" a".data) ≠ " a".data := by
  refine ⟨by decide, by decide, by decide⟩

/-- C6 amended: a token that is lowercase, contains no quote character and
carries no leading or trailing whitespace is a fixed point of the
country-token normalization. -/
theorem c6_amended_fixed_point (s : List Char)
    (hlow : s.map Char.toLower = s)
    (hq : ∀ c ∈ s, c ≠ '\'' ∧ c ≠ '"')
    (hstrip : pyStrip s = s) :
    normalizeCountry s = s := by
  unfold normalizeCountry
  rw [hstrip, hlow]
  have h1 : s.filter (fun c => (c ≠ '\'' : Bool)) = s := by
    rw [List.filter_eq_self]
    intro a ha
    simpa using (hq a ha).1
  rw [h1, List.filter_eq_self]
  intro a ha
  simpa using (hq a ha).2

/-- Witness for C6 at the already-normalized token `japan`. -/
theorem c6_witness : normalizeCountry ("japan".data) = "japan".data :=
  c6_amended_fixed_point ("japan".data) (by decide) (by decide) (by decide)

/-- C7: when the stage-2 reply has no comma and is non-empty after
trimming, `trends` has exactly one entry, stage 3 produces exactly one
report, and stage 4 still produces the final report from the model's
synthesis reply. -/
theorem c7_single_phrase (env : Env) (st : AgentState)
    (hnc : ',' ∉ stage2Reply env st)
    (hne : pyStrip (stage2Reply env st) ≠ []) :
    (analyze_and_get_trends env st).1.trends = [pyStrip (stage2Reply env st)] ∧
    (research_trends_context env (analyze_and_get_trends env st).1).1.context_reports.length = 1 ∧
    (synthesize_report env
        (research_trends_context env (analyze_and_get_trends env st).1).1).1.final_report
      = pyStrip (env.llm (final_prompt (List.intercalate ("\n\n".data)
          (research_trends_context env
            (analyze_and_get_trends env st).1).1.context_reports))) := by
  have ht : (analyze_and_get_trends env st).1.trends = [pyStrip (stage2Reply env st)] :=
    (analyze_trends_eq env st).trans (parseTrends_single hnc hne)
  refine ⟨ht, ?_, rfl⟩
  rw [research_reports, ht]
  rfl

/-- Witness for C7 with a model that replies `"hello world"`. -/
theorem c7_witness :
    (analyze_and_get_trends (⟨fun _ => "hello world".data, fun _ _ => []⟩ : Env)
        (initial_state [])).1.trends
      = [pyStrip (stage2Reply (⟨fun _ => "hello world".data, fun _ _ => []⟩ : Env)
          (initial_state []))] :=
  (c7_single_phrase (⟨fun _ => "hello world".data, fun _ _ => []⟩ : Env)
    (initial_state []) (by decide) (by decide)).1

/-- C8 counterexample: for the token `global`, the stage-2 search query is
not the pattern with the token substituted; the country part is replaced by
the empty string, leaving a trailing space. -/
theorem c8_counterexample :
    trends_search_query ("global".data)
        ≠ "site:trends24.in top trending topics ".data ++ "global".data ∧
    trends_search_query ("global".data)
        = "site:trends24.in top trending topics ".data := by
  constructor
  · decide
  · decide

/-- C8 amended: stage 2 issues exactly one search with result cap 5 whose
query is `site:trends24.in top trending topics ` followed by the country
token when it differs from `global`, and by the empty string when the token
is `global`; stage 3 issues exactly one search per trend, with result cap 3
and query `why is {trend} trending news today source article`. -/
theorem c8_amended_search_queries (env : Env) (st : AgentState) :
    ((analyze_and_get_trends env st).2.filter isSearchEvent
      = [Event.searchCall (trends_search_query (countryOf env st)) 5]) ∧
    (countryOf env st ≠ "global".data →
      trends_search_query (countryOf env st)
        = "site:trends24.in top trending topics ".data ++ countryOf env st) ∧
    (countryOf env st = "global".data →
      trends_search_query (countryOf env st)
        = "site:trends24.in top trending topics ".data) ∧
    ((research_trends_context env st).2.filter isSearchEvent
      = st.trends.map (fun t => Event.searchCall (context_query t) 3)) ∧
    (∀ t, context_query t
      = "why is ".data ++ t ++ " trending news today source article".data) := by
  refine ⟨rfl, ?_, ?_, ?_, fun t => rfl⟩
  · intro h
    simp [trends_search_query, h]
  · intro h
    simp [trends_search_query, h]
  · rw [research_events]
    exact research_search_calls env st.trends

/-- Witness for C8 with a model that names `japan` and one trend in state. -/
theorem c8_witness :
    trends_search_query (countryOf
        (⟨fun _ => "japan".data, fun _ _ => []⟩ : Env) (initial_state []))
      = "site:trends24.in top trending topics ".data ++
        countryOf (⟨fun _ => "japan".data, fun _ _ => []⟩ : Env) (initial_state []) :=
  (c8_amended_search_queries (⟨fun _ => "japan".data, fun _ _ => []⟩ : Env)
    (initial_state [])).2.1 (by decide)

/-- C9: when stage 2 yields no trends, stage 3 makes no external call and
returns no reports, stage 4 still runs on the empty join and sets the final
report, and the handler still emits exactly one outbound message. -/
theorem c9_empty_trends (env : Env) (q : List Char)
    (h : (analyze_and_get_trends env (initial_state q)).1.trends = []) :
    (research_trends_context env
        (analyze_and_get_trends env (initial_state q)).1).1.context_reports = [] ∧
    (research_trends_context env
        (analyze_and_get_trends env (initial_state q)).1).2 = [] ∧
    List.intercalate ("\n\n".data) ([] : List (List Char)) = [] ∧
    (synthesize_report env
        (research_trends_context env
          (analyze_and_get_trends env (initial_state q)).1).1).1.final_report
      = pyStrip (env.llm (final_prompt [])) ∧
    langgraph_trends_agent env q
      = [(synthesize_report env
            (research_trends_context env
              (analyze_and_get_trends env (initial_state q)).1).1).1.final_report] := by
  have h1 : (research_trends_context env
      (analyze_and_get_trends env (initial_state q)).1).1.context_reports = [] := by
    rw [research_reports, h]
    rfl
  have h2 : (research_trends_context env
      (analyze_and_get_trends env (initial_state q)).1).2 = [] := by
    rw [research_events, h]
    rfl
  refine ⟨h1, h2, rfl, ?_, rfl⟩
  show pyStrip (env.llm (final_prompt (List.intercalate ("\n\n".data)
    (research_trends_context env
      (analyze_and_get_trends env (initial_state q)).1).1.context_reports))) = _
  rw [h1]
  rfl

/-- Witness for C9 with a model whose replies are empty. -/
theorem c9_witness :
    (research_trends_context (⟨fun _ => [], fun _ _ => []⟩ : Env)
        (analyze_and_get_trends (⟨fun _ => [], fun _ _ => []⟩ : Env)
          (initial_state [])).1).2 = [] :=
  (c9_empty_trends (⟨fun _ => [], fun _ _ => []⟩ : Env) [] (by decide)).2.1

/-- C10: every trend stored by stage 2 contains no comma and no leading or
trailing whitespace, and the later stages return the trends unchanged. -/
theorem c10_trends_invariant (env : Env) (st : AgentState) :
    (∀ t ∈ (analyze_and_get_trends env st).1.trends, ',' ∉ t ∧ pyStrip t = t) ∧
    (research_trends_context env (analyze_and_get_trends env st).1).1.trends
      = (analyze_and_get_trends env st).1.trends ∧
    (synthesize_report env
        (research_trends_context env (analyze_and_get_trends env st).1).1).1.trends
      = (analyze_and_get_trends env st).1.trends := by
  refine ⟨?_, rfl, rfl⟩
  intro t ht
  rw [analyze_trends_eq] at ht
  exact ⟨parseTrends_no_comma ht, (mem_parseTrends ht).1⟩

/-- Witness for C10 at a concrete environment whose model reply is `" a ,b"`. -/
theorem c10_witness :
    ',' ∉ ("a".data) ∧ pyStrip ("a".data) = "a".data :=
  (c10_trends_invariant (⟨fun _ => " a ,b".data, fun _ _ => []⟩ : Env)
    (initial_state [])).1 ("a".data) (by decide)

end XTrends
